import Mathlib

/-
Verification of the light-state synchronization and color conversion core of
the Hue light controller (src/HueLightProject.py).  The Python code is
embedded shallowly: every numeric value the program manipulates is modelled
exactly (rationals for slider and color channel values, integers for device
fields), the device bridge is a parameter (an enumeration response that
either raises or returns a device list, and a trace of issued commands), and
Python exception flow is modelled with Except.
-/

namespace Hue

/-- Value carried by one field of a device command: the Hue bridge API used
by the program takes booleans (the on field) and integers (bri, hue, sat). -/
inductive FieldValue where
  | b (v : Bool)
  | i (v : Int)
deriving DecidableEq, Repr

/-- Command sent to the bridge, mirroring the two shapes of
bridge.set_light used by the program: a single named field with one value
(toggle_light, set_brightness), or a dictionary of several fields set at
once (pick_color). -/
inductive Command where
  | setField (id : Int) (field : String) (value : FieldValue)
  | setFields (id : Int) (fields : List (String × FieldValue))
deriving DecidableEq, Repr

/-- In-memory record for one light, matching the dictionary built by
get_lights_from_hue with keys id, name, environment, state, brightness,
hue, saturation (the spec calls the state field isOn). -/
structure LightRecord where
  id : Int
  name : String
  environment : String
  state : Bool
  brightness : Int
  hue : Int
  saturation : Int
deriving DecidableEq, Repr

/-- One entry of the device-service enumeration response: identifier as the
device service reports it (possibly a string), display name, on/off state,
brightness, and optional hue and saturation (color-capable models only). -/
structure DeviceLight where
  id : String
  name : String
  isOn : Bool
  brightness : Int
  hue : Option Int
  saturation : Option Int
deriving DecidableEq, Repr

/-- Failure kinds of a registry fetch: the device service raised (the
spec's DeviceServiceError), or a device-reported identifier did not parse
as an integer (Python's int raising ValueError; the spec's
ConversionError). -/
inductive FetchError where
  | deviceServiceError
  | conversionError
deriving DecidableEq, Repr

/-- Mutable application state the claims are about: the registry
self.lights. -/
structure AppState where
  lights : List LightRecord
deriving DecidableEq, Repr

/-- Truncation toward zero, the semantics of Python int() on a number. -/
def pyint (q : ℚ) : Int := if 0 ≤ q then Int.floor q else Int.ceil q

/-- Numeric value of a decimal digit character. -/
def digitVal (c : Char) : Nat := c.toNat - Char.toNat ('0')

/-- Digits after the first one: decimal digits, with a single underscore
allowed only between two digits (the grammar Python's int() accepts). -/
def parseDigitsGo : List Char → Nat → Option Nat
  | [], acc => some acc
  | c :: cs, acc =>
    if c.isDigit then parseDigitsGo cs (10 * acc + digitVal c)
    else if c = '_' then
      match cs with
      | [] => none
      | c2 :: cs2 =>
        if c2.isDigit then parseDigitsGo cs2 (10 * acc + digitVal c2)
        else none
    else none

/-- Parse a nonempty run of decimal digits (with underscore separators
between digits) to its decimal value. -/
def parseDigits : List Char → Option Nat
  | [] => none
  | c :: cs => if c.isDigit then parseDigitsGo cs (digitVal c) else none

/-- Strip leading and trailing whitespace, as Python does before int()
parses a string. -/
def pyStrip (cs : List Char) : List Char :=
  ((cs.dropWhile Char.isWhitespace).reverse.dropWhile Char.isWhitespace).reverse

/-- Semantics of Python int(s) on a string s: optional surrounding
whitespace, an optional sign, then decimal digits; ValueError (none)
otherwise.  A successful parse denotes the digit string's decimal value
exactly, so the cast loses no information. -/
def pyIntOfString (s : String) : Option Int :=
  match pyStrip s.toList with
  | [] => none
  | c :: cs =>
    if c = '+' then (parseDigits cs).map (fun n => (n : Int))
    else if c = '-' then (parseDigits cs).map (fun n => -(n : Int))
    else (parseDigits (c :: cs)).map (fun n => (n : Int))

/-- Largest channel, max(r, g, b) in colorsys.rgb_to_hsv. -/
def maxc (r g b : ℚ) : ℚ := max r (max g b)

/-- Smallest channel, min(r, g, b) in colorsys.rgb_to_hsv. -/
def minc (r g b : ℚ) : ℚ := min r (min g b)

/-- Raw hue sector value computed by colorsys.rgb_to_hsv in the branch
where minc ≠ maxc, before the division by 6 and the wrap-around. -/
def hueRaw (r g b : ℚ) : ℚ :=
  if r = maxc r g b then
    (maxc r g b - b) / (maxc r g b - minc r g b)
      - (maxc r g b - g) / (maxc r g b - minc r g b)
  else if g = maxc r g b then
    2 + (maxc r g b - r) / (maxc r g b - minc r g b)
      - (maxc r g b - b) / (maxc r g b - minc r g b)
  else
    4 + (maxc r g b - g) / (maxc r g b - minc r g b)
      - (maxc r g b - r) / (maxc r g b - minc r g b)

/-- Exact-arithmetic embedding of colorsys.rgb_to_hsv as called by
pick_color: returns (h, s, v); the Python expression (h / 6.0) % 1.0 is the
fractional part, since the divisor 1.0 is positive. -/
def rgb_to_hsv (r g b : ℚ) : ℚ × ℚ × ℚ :=
  if minc r g b = maxc r g b then (0, 0, maxc r g b)
  else
    (Int.fract (hueRaw r g b / 6),
     (maxc r g b - minc r g b) / maxc r g b,
     maxc r g b)

/-- Device color conversion performed by pick_color after normalization:
hue_value = int(h * 65535) and saturation_value = int(s * 254); the value
component is discarded (brightness is controlled separately). -/
def toDeviceColor (r g b : ℚ) : Int × Int :=
  (pyint ((rgb_to_hsv r g b).1 * 65535), pyint ((rgb_to_hsv r g b).2.1 * 254))

/-- Name of the on/off field in bridge commands. -/
def onField : String := "on"

/-- Name of the brightness field in bridge commands. -/
def briField : String := "bri"

/-- Name of the hue field in bridge commands. -/
def hueField : String := "hue"

/-- Name of the saturation field in bridge commands. -/
def satField : String := "sat"

/-- Embedding of LightApp.toggle_light: set the record's state to the
checkbox value and issue one single-field on command.  There is no registry
lookup and no failure path; the function acts on whatever record the GUI
callback captured. -/
def toggle_light (light : LightRecord) (var : Bool) : LightRecord × List Command :=
  ({ light with state := var }, [Command.setField light.id onField (FieldValue.b var)])

/-- Embedding of LightApp.set_brightness: brightness = int(var.get()), then
one single-field bri command.  The record is not modified and no clamping
happens here; the slider widget's range is the only constraint on the
value. -/
def set_brightness (light : LightRecord) (var : ℚ) : LightRecord × List Command :=
  (light, [Command.setField light.id briField (FieldValue.i (pyint var))])

/-- Embedding of LightApp.pick_color: if the chooser returned a color
(8-bit channels), normalize each channel by 255, convert with rgb_to_hsv
and the integer scalings, and issue one combined command setting hue, sat
and on = True; if the chooser was dismissed (none), do nothing.  The record
itself is never written. -/
def pick_color (light : LightRecord) (color : Option (ℚ × ℚ × ℚ)) :
    LightRecord × List Command :=
  match color with
  | none => (light, [])
  | some c =>
      (light,
       [Command.setFields light.id
         [(hueField, FieldValue.i (toDeviceColor (c.1 / 255) (c.2.1 / 255) (c.2.2 / 255)).1),
          (satField, FieldValue.i (toDeviceColor (c.1 / 255) (c.2.1 / 255) (c.2.2 / 255)).2),
          (onField, FieldValue.b true)]])

/-- Loop body of get_lights_from_hue for one enumerated device: id is the
integer cast of the reported identifier (aborting with the conversion error
when it fails), name, state and brightness are taken verbatim, environment
is the constant grouping value, and hue and saturation default to 0 and 254
when the device omits them. -/
def buildRecord (d : DeviceLight) : Except FetchError LightRecord :=
  match pyIntOfString d.id with
  | none => Except.error FetchError.conversionError
  | some i =>
      Except.ok
        { id := i, name := d.name, environment := "Default", state := d.isOn,
          brightness := d.brightness, hue := d.hue.getD 0,
          saturation := d.saturation.getD 254 }

/-- Loop of get_lights_from_hue over the enumeration response, appending
records in order; the first identifier that fails to cast makes the
exception propagate out of the loop, aborting the whole fetch. -/
def buildRecords : List DeviceLight → Except FetchError (List LightRecord)
  | [] => Except.ok []
  | d :: ds =>
    match buildRecord d with
    | Except.error e => Except.error e
    | Except.ok r =>
      match buildRecords ds with
      | Except.error e => Except.error e
      | Except.ok rs => Except.ok (r :: rs)

/-- Embedding of LightApp.get_lights_from_hue: the device-service
enumeration either raises (modelled as the error case, surfaced as the
device-service error) or yields the device list, which is then converted
record by record. -/
def get_lights_from_hue (resp : Except String (List DeviceLight)) :
    Except FetchError (List LightRecord) :=
  match resp with
  | Except.error _ => Except.error FetchError.deviceServiceError
  | Except.ok ds => buildRecords ds

/-- Embedding of LightApp.refresh_lights, which runs self.lights =
self.get_lights_from_hue().  If the fetch raises, the assignment never
executes and the state is returned unchanged alongside the error. -/
def refresh_lights_run (resp : Except String (List DeviceLight)) (st : AppState) :
    Except FetchError Unit × AppState :=
  match get_lights_from_hue resp with
  | Except.error e => (Except.error e, st)
  | Except.ok l => (Except.ok (), { st with lights := l })

/-- One step of the grouping loop in populate_lights: the record is packed
into its environment's frame, a new frame being appended at the end when
this environment has not been seen before. -/
def addRecord (acc : List (String × List LightRecord)) (r : LightRecord) :
    List (String × List LightRecord) :=
  if r.environment ∈ acc.map Prod.fst then
    acc.map (fun p => if p.1 = r.environment then (p.1, p.2 ++ [r]) else p)
  else acc ++ [(r.environment, [r])]

/-- Pure content of LightApp.populate_lights: the ordered environment
frames (env_frames, in creation order) together with the lights packed into
each, as built by the loop over self.lights after the display is cleared. -/
def populate_lights_groups (lights : List LightRecord) :
    List (String × List LightRecord) :=
  lights.foldl addRecord []

/-- First-seen ordering of the environment names of a list, relative to the
names already present in ks. -/
def newKeys (ks : List String) : List String → List String
  | [] => []
  | e :: es => if e ∈ ks then newKeys ks es else e :: newKeys (ks ++ [e]) es

/-- Records of a list whose environment equals e, kept in input order. -/
def envFilter (e : String) : List LightRecord → List LightRecord
  | [] => []
  | r :: rs => if r.environment = e then r :: envFilter e rs else envFilter e rs

/-- Grouping as the specification describes buildView: partition the
records by environment, environment names in first-seen order, each
partition keeping the input order of its records.  The claim about
populate_lights is that its grouping equals this. -/
def buildView_spec (records : List LightRecord) : List (String × List LightRecord) :=
  (newKeys [] (records.map LightRecord.environment)).map
    (fun e => (e, envFilter e records))

/-- Concrete light used in counterexamples: switched off, with distinctive
field values. -/
def cexLight : LightRecord :=
  { id := 3, name := "Desk", environment := "Default", state := false,
    brightness := 100, hue := 123, saturation := 45 }

/-- Concrete record whose identifier 99 is absent from registry0. -/
def absent99 : LightRecord :=
  { id := 99, name := "Ghost", environment := "Default", state := false,
    brightness := 50, hue := 0, saturation := 254 }

/-- Concrete one-light registry, not containing identifier 99. -/
def registry0 : AppState := { lights := [cexLight] }

/-- Device entry with a parseable identifier and no color capability. -/
def devLamp : DeviceLight :=
  { id := "7", name := "Lamp", isOn := true, brightness := 200,
    hue := none, saturation := none }

/-- Device entry with a parseable identifier and color capability. -/
def devColor : DeviceLight :=
  { id := "12", name := "Strip", isOn := false, brightness := 30,
    hue := some 1000, saturation := some 100 }

/-- Device entry whose reported identifier is not an integer literal. -/
def devBadId : DeviceLight :=
  { id := "3.5", name := "Odd", isOn := true, brightness := 10,
    hue := none, saturation := none }

/-- Well-formed enumeration response. -/
def dsGood : List DeviceLight := [devLamp, devColor]

/-- Enumeration response containing a malformed identifier. -/
def dsBad : List DeviceLight := [devLamp, devBadId]

/-- Expected record for devLamp after a successful fetch. -/
def recLamp : LightRecord :=
  { id := 7, name := "Lamp", environment := "Default", state := true,
    brightness := 200, hue := 0, saturation := 254 }

/-- Expected record for devColor after a successful fetch. -/
def recStrip : LightRecord :=
  { id := 12, name := "Strip", environment := "Default", state := false,
    brightness := 30, hue := 1000, saturation := 100 }

/-
Helper lemmas shared by the claim theorems.
-/

/-- Truncation agrees with the floor on nonnegative values. -/
lemma pyint_of_nonneg (q : ℚ) (h : 0 ≤ q) : pyint q = Int.floor q := if_pos h

/-- Evaluation rule for pyint on a nonnegative value bracketed by an
integer. -/
lemma pyint_eq_of (q : ℚ) (z : ℤ) (h0 : 0 ≤ q) (h1 : (z : ℚ) ≤ q) (h2 : q < z + 1) :
    pyint q = z := by
  rw [pyint, if_pos h0]
  exact Int.floor_eq_iff.mpr ⟨h1, h2⟩

/-- The hue component returned by rgb_to_hsv lies in [0, 1), in both
branches (either it is 0, or it is a fractional part). -/
lemma hsv_h_mem (r g b : ℚ) : 0 ≤ (rgb_to_hsv r g b).1 ∧ (rgb_to_hsv r g b).1 < 1 := by
  rw [rgb_to_hsv]
  split_ifs with h
  · norm_num
  · exact ⟨Int.fract_nonneg _, Int.fract_lt_one _⟩

/-- The saturation component returned by rgb_to_hsv lies in [0, 1] when
all channels are nonnegative. -/
lemma hsv_s_mem (r g b : ℚ) (hr : 0 ≤ r) (hg : 0 ≤ g) (hb : 0 ≤ b) :
    0 ≤ (rgb_to_hsv r g b).2.1 ∧ (rgb_to_hsv r g b).2.1 ≤ 1 := by
  rw [rgb_to_hsv]
  split_ifs with h
  · norm_num
  · have hminc : 0 ≤ minc r g b := le_min hr (le_min hg hb)
    have hle : minc r g b ≤ maxc r g b :=
      le_trans (min_le_left _ _) (le_max_left _ _)
    have hlt : minc r g b < maxc r g b := lt_of_le_of_ne hle h
    have hpos : 0 < maxc r g b := lt_of_le_of_lt hminc hlt
    constructor
    · exact div_nonneg (by linarith) (le_of_lt hpos)
    · rw [div_le_one hpos]; linarith

/-- A successful per-device conversion yields exactly the record the loop
body constructs: parsed id, verbatim name, state and brightness, default
environment, and getD-defaulted hue and saturation. -/
lemma buildRecord_ok_spec (d : DeviceLight) (r : LightRecord)
    (h : buildRecord d = Except.ok r) :
    pyIntOfString d.id = some r.id ∧ r.name = d.name ∧ r.state = d.isOn ∧
    r.brightness = d.brightness ∧ r.environment = "Default" ∧
    r.hue = d.hue.getD 0 ∧ r.saturation = d.saturation.getD 254 := by
  rw [buildRecord] at h
  cases hp : pyIntOfString d.id with
  | none => rw [hp] at h; exact Except.noConfusion h
  | some i =>
    rw [hp] at h
    injection h with h2
    subst h2
    exact ⟨rfl, rfl, rfl, rfl, rfl, rfl, rfl⟩

/-- The only error a per-device conversion can raise is the conversion
error. -/
lemma buildRecord_error_conv (d : DeviceLight) (e : FetchError)
    (h : buildRecord d = Except.error e) : e = FetchError.conversionError := by
  rw [buildRecord] at h
  cases hp : pyIntOfString d.id with
  | none => rw [hp] at h; injection h with h2; exact h2.symm
  | some i => rw [hp] at h; exact Except.noConfusion h

/-- A malformed identifier anywhere in the response makes the whole
conversion loop abort with the conversion error. -/
lemma buildRecords_error_of_bad (ds : List DeviceLight)
    (h : ∃ d ∈ ds, pyIntOfString d.id = none) :
    buildRecords ds = Except.error FetchError.conversionError := by
  induction ds with
  | nil => obtain ⟨d, hd, _⟩ := h; exact absurd hd (List.not_mem_nil d)
  | cons a ds ih =>
    obtain ⟨d, hd, hbad⟩ := h
    rw [buildRecords]
    rcases List.mem_cons.mp hd with heq | hmem
    · subst heq
      have hb : buildRecord d = Except.error FetchError.conversionError := by
        rw [buildRecord, hbad]
      rw [hb]
    · cases hb : buildRecord a with
      | error e => rw [buildRecord_error_conv a e hb]
      | ok r => rw [ih ⟨d, hmem, hbad⟩]

/-- A successful conversion loop converts the devices pointwise and in
order. -/
lemma buildRecords_ok_forall (ds : List DeviceLight) (rs : List LightRecord)
    (h : buildRecords ds = Except.ok rs) :
    List.Forall₂ (fun d r => buildRecord d = Except.ok r) ds rs := by
  induction ds generalizing rs with
  | nil =>
    rw [buildRecords] at h
    injection h with h2
    subst h2
    exact List.Forall₂.nil
  | cons a ds ih =>
    rw [buildRecords] at h
    cases hb : buildRecord a with
    | error e => rw [hb] at h; exact Except.noConfusion h
    | ok r =>
      rw [hb] at h
      cases hr : buildRecords ds with
      | error e => rw [hr] at h; exact Except.noConfusion h
      | ok rs2 =>
        rw [hr] at h
        injection h with h2
        subst h2
        exact List.Forall₂.cons hb (ih rs2 hr)

/-- Names produced by newKeys are always new: they do not occur in the
already-seen list. -/
lemma notMem_of_mem_newKeys (l : List String) :
    ∀ ks e, e ∈ newKeys ks l → e ∉ ks := by
  induction l with
  | nil => intro ks e h; rw [newKeys] at h; exact absurd h (List.not_mem_nil e)
  | cons a l ih =>
    intro ks e h
    rw [newKeys] at h
    by_cases ha : a ∈ ks
    · rw [if_pos ha] at h
      exact ih ks e h
    · rw [if_neg ha] at h
      rcases List.mem_cons.mp h with heq | h2
      · subst heq; exact ha
      · intro hek
        exact ih (ks ++ [a]) e h2 (List.mem_append_left _ hek)

/-- Equation for addRecord when the record's environment already has a
frame. -/
lemma addRecord_of_mem (acc : List (String × List LightRecord)) (r : LightRecord)
    (h : r.environment ∈ acc.map Prod.fst) :
    addRecord acc r =
      acc.map (fun p => if p.1 = r.environment then (p.1, p.2 ++ [r]) else p) := by
  rw [addRecord, if_pos h]

/-- Equation for addRecord when the record's environment is new. -/
lemma addRecord_of_notMem (acc : List (String × List LightRecord)) (r : LightRecord)
    (h : r.environment ∉ acc.map Prod.fst) :
    addRecord acc r = acc ++ [(r.environment, [r])] := by
  rw [addRecord, if_neg h]

/-- Packing into an existing frame does not change the frame names. -/
lemma map_fst_addRecord_mem (acc : List (String × List LightRecord)) (r : LightRecord)
    (h : r.environment ∈ acc.map Prod.fst) :
    (addRecord acc r).map Prod.fst = acc.map Prod.fst := by
  rw [addRecord_of_mem acc r h, List.map_map]
  apply List.map_congr_left
  intro p hp
  by_cases hpe : p.1 = r.environment
  · simp [hpe]
  · simp [hpe]

/-- addRecord preserves distinctness of the frame names. -/
lemma nodup_addRecord (acc : List (String × List LightRecord)) (r : LightRecord)
    (h : (acc.map Prod.fst).Nodup) : ((addRecord acc r).map Prod.fst).Nodup := by
  by_cases hm : r.environment ∈ acc.map Prod.fst
  · rw [map_fst_addRecord_mem acc r hm]; exact h
  · rw [addRecord_of_notMem acc r hm, List.map_append]
    simp only [List.map_cons, List.map_nil]
    rw [List.nodup_append]
    exact ⟨h, List.nodup_singleton _, by
      intro x hx hx2
      rw [List.mem_singleton] at hx2
      subst hx2
      exact hm hx⟩

/-- Equation for envFilter on a matching head. -/
lemma envFilter_cons_eq (e : String) (r : LightRecord) (rs : List LightRecord)
    (h : r.environment = e) : envFilter e (r :: rs) = r :: envFilter e rs := by
  rw [envFilter, if_pos h]

/-- Equation for envFilter on a non-matching head. -/
lemma envFilter_cons_ne (e : String) (r : LightRecord) (rs : List LightRecord)
    (h : ¬ r.environment = e) : envFilter e (r :: rs) = envFilter e rs := by
  rw [envFilter, if_neg h]

/-- Invariant of the grouping loop: folding addRecord over the remaining
records extends every existing frame with the matching records, in order,
and appends one frame per newly seen environment, in first-seen order. -/
lemma foldl_addRecord_eq (rs : List LightRecord) :
    ∀ acc : List (String × List LightRecord), (acc.map Prod.fst).Nodup →
      List.foldl addRecord acc rs =
        acc.map (fun p => (p.1, p.2 ++ envFilter p.1 rs))
          ++ (newKeys (acc.map Prod.fst) (rs.map LightRecord.environment)).map
              (fun e => (e, envFilter e rs)) := by
  induction rs with
  | nil =>
    intro acc hnd
    simp [newKeys, envFilter]
  | cons r rs ih =>
    intro acc hnd
    rw [List.foldl_cons, ih (addRecord acc r) (nodup_addRecord acc r hnd),
      List.map_cons]
    by_cases hm : r.environment ∈ acc.map Prod.fst
    · rw [map_fst_addRecord_mem acc r hm, addRecord_of_mem acc r hm, newKeys, if_pos hm]
      congr 1
      · rw [List.map_map]
        apply List.map_congr_left
        intro p hp
        by_cases hpe : p.1 = r.environment
        · have hpe2 : r.environment = p.1 := hpe.symm
          simp only [Function.comp_apply, if_pos hpe]
          rw [envFilter_cons_eq p.1 r rs hpe2]
          simp [List.append_assoc]
        · have hpe2 : ¬ r.environment = p.1 := fun hc => hpe hc.symm
          simp only [Function.comp_apply, if_neg hpe]
          rw [envFilter_cons_ne p.1 r rs hpe2]
      · apply List.map_congr_left
        intro e he
        have hne : ¬ r.environment = e := by
          intro hc
          exact notMem_of_mem_newKeys _ _ _ he (hc ▸ hm)
        rw [envFilter_cons_ne e r rs hne]
    · rw [addRecord_of_notMem acc r hm]
      have hkeys : ((acc ++ [(r.environment, [r])]).map Prod.fst)
          = acc.map Prod.fst ++ [r.environment] := by
        rw [List.map_append]; rfl
      rw [hkeys, newKeys, if_neg hm]
      have hmapf : acc.map (fun p => (p.1, p.2 ++ envFilter p.1 (r :: rs)))
          = acc.map (fun p => (p.1, p.2 ++ envFilter p.1 rs)) := by
        apply List.map_congr_left
        intro p hp
        have hp1 : p.1 ∈ acc.map Prod.fst := List.mem_map_of_mem Prod.fst hp
        have hne : ¬ r.environment = p.1 := fun hc => hm (hc ▸ hp1)
        rw [envFilter_cons_ne p.1 r rs hne]
      have htail : (newKeys (acc.map Prod.fst ++ [r.environment])
              (rs.map LightRecord.environment)).map
            (fun e => (e, envFilter e (r :: rs)))
          = (newKeys (acc.map Prod.fst ++ [r.environment])
              (rs.map LightRecord.environment)).map
            (fun e => (e, envFilter e rs)) := by
        apply List.map_congr_left
        intro e he
        have hne : ¬ r.environment = e := by
          intro hc
          exact notMem_of_mem_newKeys _ _ _ he
            (List.mem_append_right _ (hc ▸ List.mem_singleton_self r.environment))
        rw [envFilter_cons_ne e r rs hne]
      rw [hmapf, List.map_cons, htail, envFilter_cons_eq r.environment r rs rfl,
        List.map_append]
      simp [List.append_assoc]

/-
Claim theorems.
-/

/-- Claim C1, counterexample: at rawValue 0 the issued bri value is 0, not
the clamped 1 the claim states, and the record's brightness field is not
written at all (it keeps its prior value 100, so it does not become 1). -/
theorem set_brightness_cex :
    (set_brightness cexLight 0).2 = [Command.setField 3 briField (FieldValue.i 0)] ∧
    (set_brightness cexLight 0).1.brightness ≠ 1 := by
  constructor
  · simp [set_brightness, pyint, cexLight]
  · simp [set_brightness, cexLight]

/-- Claim C1, amended: for every light and every nonnegative rawValue,
set_brightness truncates the value to an integer (the floor) and issues a
single-field bri command carrying it; it performs no clamping to [1, 254]
and leaves the LightRecord — in particular its brightness field —
unchanged. -/
theorem set_brightness_truncates (light : LightRecord) (q : ℚ) (h : 0 ≤ q) :
    (set_brightness light q).1 = light ∧
    (set_brightness light q).2 =
      [Command.setField light.id briField (FieldValue.i (Int.floor q))] := by
  refine ⟨rfl, ?_⟩
  rw [set_brightness, pyint_of_nonneg q h]

/-- Claim C1, witness: at rawValue 130.7 the issued bri value is the
truncation 130 and the record is unchanged. -/
theorem set_brightness_truncates_witness :
    (set_brightness cexLight (130.7 : ℚ)).1 = cexLight ∧
    (set_brightness cexLight (130.7 : ℚ)).2 =
      [Command.setField cexLight.id briField (FieldValue.i 130)] := by
  have h := set_brightness_truncates cexLight (130.7 : ℚ) (by norm_num)
  rwa [show Int.floor (130.7 : ℚ) = 130 from Int.floor_eq_iff.mpr (by norm_num)] at h

/-- Claim C2: for channels in [0, 1] the converted hue lies in [0, 65535]
and the converted saturation in [0, 254]; pure white (1,1,1) converts to
saturation 0 and pure red (1,0,0) converts to hue 0 and saturation 254.
The conversion is the colorsys RGB→HSV transform with the value component
discarded and hue and saturation scaled by 65535 and 254 with
truncation. -/
theorem toDeviceColor_range (r g b : ℚ)
    (hr0 : 0 ≤ r) (hr1 : r ≤ 1) (hg0 : 0 ≤ g) (hg1 : g ≤ 1) (hb0 : 0 ≤ b) (hb1 : b ≤ 1) :
    (0 ≤ (toDeviceColor r g b).1 ∧ (toDeviceColor r g b).1 ≤ 65535) ∧
    (0 ≤ (toDeviceColor r g b).2 ∧ (toDeviceColor r g b).2 ≤ 254) ∧
    toDeviceColor 1 1 1 = (0, 0) ∧ toDeviceColor 1 0 0 = (0, 254) := by
  obtain ⟨hh0, hh1⟩ := hsv_h_mem r g b
  obtain ⟨hs0, hs1⟩ := hsv_s_mem r g b hr0 hg0 hb0
  have hm0 : (0 : ℚ) ≤ (rgb_to_hsv r g b).1 * 65535 := by nlinarith
  have hm1 : (rgb_to_hsv r g b).1 * 65535 < 65535 := by nlinarith
  have hn0 : (0 : ℚ) ≤ (rgb_to_hsv r g b).2.1 * 254 := by nlinarith
  have hn1 : (rgb_to_hsv r g b).2.1 * 254 ≤ 254 := by nlinarith
  refine ⟨⟨?_, ?_⟩, ⟨?_, ?_⟩, ?_, ?_⟩
  · rw [toDeviceColor]
    exact Int.floor_nonneg.mpr hm0 |>.trans_eq (pyint_of_nonneg _ hm0).symm
  · rw [toDeviceColor]
    dsimp only
    rw [pyint_of_nonneg _ hm0]
    have hfl : Int.floor ((rgb_to_hsv r g b).1 * 65535) < (65535 : ℤ) :=
      Int.floor_lt.mpr (by push_cast; linarith)
    omega
  · rw [toDeviceColor]
    dsimp only
    rw [pyint_of_nonneg _ hn0]
    exact Int.floor_nonneg.mpr hn0
  · rw [toDeviceColor]
    dsimp only
    rw [pyint_of_nonneg _ hn0]
    have h254 : ((254 : ℤ) : ℚ) = (254 : ℚ) := by norm_num
    calc Int.floor ((rgb_to_hsv r g b).2.1 * 254)
        ≤ Int.floor ((254 : ℚ)) := Int.floor_le_floor (by linarith)
      _ = 254 := by rw [← h254, Int.floor_intCast]
  · norm_num [toDeviceColor, rgb_to_hsv, maxc, minc, pyint]
  · norm_num [toDeviceColor, rgb_to_hsv, hueRaw, maxc, minc, pyint, Int.fract]

/-- Claim C2, witness: the range bounds instantiated at the concrete
in-range color (1/2, 1/4, 3/4). -/
theorem toDeviceColor_range_witness :
    (0 ≤ (toDeviceColor (1/2) (1/4) (3/4)).1 ∧ (toDeviceColor (1/2) (1/4) (3/4)).1 ≤ 65535) ∧
    (0 ≤ (toDeviceColor (1/2) (1/4) (3/4)).2 ∧ (toDeviceColor (1/2) (1/4) (3/4)).2 ≤ 254) ∧
    toDeviceColor 1 1 1 = (0, 0) ∧ toDeviceColor 1 0 0 = (0, 254) :=
  toDeviceColor_range (1/2) (1/4) (3/4) (by norm_num) (by norm_num) (by norm_num)
    (by norm_num) (by norm_num) (by norm_num)

/-- Claim C3: for every light record and every chosen color, pick_color
issues exactly one combined command, and that command sets the hue field
and the sat field to the converted values and the on field to true, whatever
the record's prior on/off state was (the record is universally quantified,
so the command is the same for a light that was off). -/
theorem pick_color_combined (light : LightRecord) (c : ℚ × ℚ × ℚ) :
    (pick_color light (some c)).2 =
      [Command.setFields light.id
        [(hueField, FieldValue.i (toDeviceColor (c.1 / 255) (c.2.1 / 255) (c.2.2 / 255)).1),
         (satField, FieldValue.i (toDeviceColor (c.1 / 255) (c.2.1 / 255) (c.2.2 / 255)).2),
         (onField, FieldValue.b true)]] := rfl

/-- Claim C4, counterexample: after picking a color for a light that is
off, the record's state is still not true, and its hue and saturation still
hold their prior values 123 and 45 rather than the converted blue values —
the record is not updated. -/
theorem pick_color_cex :
    (pick_color cexLight (some (0, 0, 255))).1.state ≠ true ∧
    (pick_color cexLight (some (0, 0, 255))).1.hue = 123 ∧
    (pick_color cexLight (some (0, 0, 255))).1.saturation = 45 := by
  refine ⟨?_, rfl, rfl⟩
  intro h
  exact Bool.false_ne_true h

/-- Claim C4, amended: pick_color never modifies the LightRecord; the
converted hue and saturation and the forced on = true travel only in the
issued device command, and the local record keeps its prior hue,
saturation and on/off state until a refresh. -/
theorem pick_color_record_unchanged (light : LightRecord) (c : Option (ℚ × ℚ × ℚ)) :
    (pick_color light c).1 = light := by
  cases c <;> rfl

/-- Claim C5: whenever the device-service enumeration raises, refresh fails
with the device-service error and the registry is returned exactly equal to
its value before the fetch — neither emptied nor partially replaced. -/
theorem refresh_lights_device_error (st : AppState) (msg : String) :
    refresh_lights_run (Except.error msg) st =
      (Except.error FetchError.deviceServiceError, st) := rfl

/-- Claim C6, counterexample: identifier 99 is absent from the concrete
registry, yet toggling its record raises no error and is not a no-op: the
record is mutated and a device command is issued. -/
theorem toggle_light_unknown_cex :
    absent99.id ∉ registry0.lights.map LightRecord.id ∧
    (toggle_light absent99 true).1 ≠ absent99 ∧
    (toggle_light absent99 true).2 ≠ [] := by
  decide

/-- Claim C6, amended: toggle_light receives the light record itself from
the GUI callback, performs no registry membership check and has no
UnknownLightError failure path; for every record — present in the registry
or not — it unconditionally sets the record's state to the desired value
and issues one single-field on command. -/
theorem toggle_light_unconditional (light : LightRecord) (v : Bool) :
    (toggle_light light v).1 = { light with state := v } ∧
    (toggle_light light v).2 = [Command.setField light.id onField (FieldValue.b v)] :=
  ⟨rfl, rfl⟩

/-- Claim C7: a device-reported identifier that does not parse as an
integer anywhere in the response makes the fetch fail with the conversion
error and leaves the registry exactly as it was; and on a successful
refresh every stored record id is exactly the parsed value of the
corresponding reported identifier, pointwise and in order. -/
theorem refresh_id_conversion (st stp : AppState) (ds : List DeviceLight) :
    ((∃ d ∈ ds, pyIntOfString d.id = none) →
      refresh_lights_run (Except.ok ds) st = (Except.error FetchError.conversionError, st)) ∧
    (refresh_lights_run (Except.ok ds) st = (Except.ok (), stp) →
      List.Forall₂ (fun d r => pyIntOfString d.id = some r.id) ds stp.lights) := by
  constructor
  · intro h
    rw [refresh_lights_run, get_lights_from_hue, buildRecords_error_of_bad ds h]
  · intro h
    rw [refresh_lights_run, get_lights_from_hue] at h
    cases hr : buildRecords ds with
    | error e =>
      rw [hr] at h
      exact absurd (congrArg Prod.fst h) (by simp)
    | ok rs =>
      rw [hr] at h
      have h2 : stp.lights = rs := by
        have h3 := congrArg Prod.snd h
        simp only at h3
        rw [← h3]
      rw [h2]
      exact (buildRecords_ok_forall ds rs hr).imp
        (fun a b hab => (buildRecord_ok_spec a b hab).1)

/-- Claim C7, witness: the malformed identifier "3.5" aborts the concrete
fetch with the conversion error and preserves the registry, while the
well-formed response "7", "12" yields records with ids 7 and 12. -/
theorem refresh_id_conversion_witness :
    refresh_lights_run (Except.ok dsBad) registry0 =
      (Except.error FetchError.conversionError, registry0) ∧
    List.Forall₂ (fun d r => pyIntOfString d.id = some r.id) dsGood
      (AppState.mk [recLamp, recStrip]).lights := by
  constructor
  · exact (refresh_id_conversion registry0 registry0 dsBad).1 ⟨devBadId, by decide, by decide⟩
  · exact (refresh_id_conversion registry0 (AppState.mk [recLamp, recStrip]) dsGood).2 rfl

/-- Claim C8: every record built by a successful fetch takes name, on/off
state and brightness verbatim from its device report, has the constant
default environment, and defaults hue to 0 and saturation to 254 whenever
the device omits them. -/
theorem fetch_defaults (ds : List DeviceLight) (rs : List LightRecord)
    (h : get_lights_from_hue (Except.ok ds) = Except.ok rs) :
    List.Forall₂ (fun d r =>
      r.name = d.name ∧ r.state = d.isOn ∧ r.brightness = d.brightness ∧
      r.environment = "Default" ∧
      (d.hue = none → r.hue = 0) ∧ (d.saturation = none → r.saturation = 254)) ds rs := by
  rw [get_lights_from_hue] at h
  refine (buildRecords_ok_forall ds rs h).imp ?_
  intro d r hdr
  obtain ⟨_, hn, hs, hb, he, hh, hsat⟩ := buildRecord_ok_spec d r hdr
  refine ⟨hn, hs, hb, he, ?_, ?_⟩
  · intro hz; rw [hh, hz]; rfl
  · intro hz; rw [hsat, hz]; rfl

/-- Claim C8, witness: the concrete response containing a colorless lamp
fetches to records where the lamp gets hue 0 and saturation 254 and both
records carry the verbatim name, state, brightness and the default
environment. -/
theorem fetch_defaults_witness :
    List.Forall₂ (fun (d : DeviceLight) (r : LightRecord) =>
      r.name = d.name ∧ r.state = d.isOn ∧ r.brightness = d.brightness ∧
      r.environment = "Default" ∧
      (d.hue = none → r.hue = 0) ∧ (d.saturation = none → r.saturation = 254))
      dsGood [recLamp, recStrip] :=
  fetch_defaults dsGood [recLamp, recStrip] rfl

/-- Claim C9: the grouping built by populate_lights partitions the records
by environment — frame names in first-seen order, each frame holding
exactly the records with that environment in input order — and, being a
pure function, calling it twice on the same input yields structurally equal
groupings. -/
theorem populate_lights_partition (records : List LightRecord) :
    populate_lights_groups records = buildView_spec records ∧
    populate_lights_groups records = populate_lights_groups records := by
  refine ⟨?_, rfl⟩
  have h := foldl_addRecord_eq records [] (by simp)
  simpa [populate_lights_groups, buildView_spec] using h

/-- Claim C10: when the color chooser is dismissed without a selection,
pick_color issues no device command and the record is unchanged. -/
theorem pick_color_dismissed (light : LightRecord) :
    pick_color light none = (light, []) := rfl

end Hue
